import Mathlib

/-!
Verification of the calibration modal logic of the bambuddy frontend
(`src/frontend/src/components/control/CalibrationModal.tsx`).

The component's core is embedded shallowly:
* `PrinterStatus` / the `status : Option PrinterStatus` prop with its
  defaulting (`status?.connected ?? false`, `status?.stg_cur ?? -1`);
* the stage classifier `isCalibrating`;
* the selection-dependent `expectedFlow` builder and `currentStepIndex`;
* the four `useEffect` blocks that drive the progress flags, combined into
  one transition function `applySnapshot` (the effects run to a fixpoint
  after each snapshot; one sequential pass in source order reaches it);
* the start gating (`canStart`), the mutation resolution, the reset action
  and the checkbox gating.
-/

/-- Shape of the `status` prop (`PrinterStatus` from the api client): the
fields the modal reads.  `stg_cur` is the device stage code, `state` the
coarse run/idle string. -/
structure PrinterStatus where
  connected : Bool
  state : String
  stg_cur : Int
  stg_cur_name : Option String
deriving DecidableEq

/-- `const CALIBRATION_STAGES = new Set([1, 3, 13, 25, 39, 40, 47, 48, 50])`
(line 15); only membership is used, so a list embeds the set. -/
def CALIBRATION_STAGES : List Int := [1, 3, 13, 25, 39, 40, 47, 48, 50]

/-- The stage classifier (line 120):
`CALIBRATION_STAGES.has(currentStage) && printerState === 'RUNNING'`.
`printerState` is `status?.state`, hence `Option String`: when the status
prop is absent the comparison with `'RUNNING'` is false. -/
def isCalibrating (stageCode : Int) (deviceState : Option String) : Bool :=
  CALIBRATION_STAGES.contains stageCode && deviceState == some "RUNNING"

/-- `status?.connected ?? false` (line 92). -/
def connectedOf (status : Option PrinterStatus) : Bool :=
  match status with
  | some st => st.connected
  | none => false

/-- `status?.stg_cur ?? -1` (line 94). -/
def currentStageOf (status : Option PrinterStatus) : Int :=
  match status with
  | some st => st.stg_cur
  | none => -1

/-- `status?.state` (line 119). -/
def printerStateOf (status : Option PrinterStatus) : Option String :=
  match status with
  | some st => some st.state
  | none => none

/-- The classifier wired to the status prop, as the component computes it. -/
def isCalibratingOf (status : Option PrinterStatus) : Bool :=
  isCalibrating (currentStageOf status) (printerStateOf status)

/-- The five calibration option flags (component state, lines 108-112). -/
structure CalOptions where
  bedLeveling : Bool
  vibration : Bool
  motorNoise : Bool
  nozzleOffset : Bool
  highTempHeatbed : Bool
deriving DecidableEq

/-- Defaults used when nothing is restored from storage (lines 108-112) and
by `resetCalibration` (lines 165-169). -/
def defaultOptions (isDualNozzle : Bool) : CalOptions :=
  { bedLeveling := true, vibration := true, motorNoise := true,
    nozzleOffset := isDualNozzle, highTempHeatbed := false }

/-- `hasSelection` (line 200). -/
def hasSelection (o : CalOptions) : Bool :=
  o.bedLeveling || o.vibration || o.motorNoise || o.nozzleOffset || o.highTempHeatbed

/-- One entry of `expectedFlow`: `{ name: string; stages: number[] }`. -/
structure FlowStep where
  name : String
  stages : List Int
deriving DecidableEq

/-- `expectedFlow` (lines 205-227): the push sequence, in source order.
`Homing toolhead` is pushed unconditionally before any guard. -/
def expectedFlow (o : CalOptions) (isDualNozzle : Bool) : List FlowStep :=
  [⟨"Homing toolhead", [13]⟩]
  ++ (if o.bedLeveling || o.highTempHeatbed then [⟨"Cooling heatbed", [50]⟩] else [])
  ++ (if o.bedLeveling then [⟨"Auto bed leveling - phase 1", [1, 47]⟩] else [])
  ++ (if o.motorNoise then [⟨"Motor noise cancellation", [25]⟩] else [])
  ++ (if o.vibration then [⟨"Vibration compensation", [3]⟩] else [])
  ++ (if o.bedLeveling then [⟨"Auto bed leveling - phase 2", [48]⟩] else [])
  ++ (if isDualNozzle && o.nozzleOffset then [⟨"Nozzle offset calibration", [39]⟩] else [])
  ++ (if o.highTempHeatbed then [⟨"High-temp heatbed calibration", [40]⟩] else [])

/-- `currentStepIndex` (lines 230-232): JavaScript `findIndex`, which
returns the first matching index or `-1`. -/
def currentStepIndex (flow : List FlowStep) (currentStage : Int) : Int :=
  match flow.findIdx? (fun step => step.stages.contains currentStage) with
  | some i => (i : Int)
  | none => -1

/-- The four progress-tracking `useState` booleans (lines 97-114):
`calibrationStarted`, `seenCalibrating`, `calibrationCompleted`,
`initialized`. -/
structure ProgressState where
  calibrationStarted : Bool
  seenCalibrating : Bool
  calibrationCompleted : Bool
  initDone : Bool
deriving DecidableEq

/-- The four snapshot-driven `useEffect` blocks (lines 124-156), applied in
source order for a fixed classifier value `c`.  React re-runs the effects
until no setter fires; for a fixed `c` one sequential pass in source order
already reaches that fixpoint, so this function is the per-snapshot
transition.
1. lines 124-132: first-render initialization (`initialized` latch);
2. lines 135-140: latch `seenCalibrating`, clearing a stale `completed`;
3. lines 143-147: latch `calibrationStarted` (externally started runs);
4. lines 152-156: completion detection. -/
def applyEffects (c : Bool) (s : ProgressState) : ProgressState :=
  let s1 :=
    if !s.initDone && c then
      { s with seenCalibrating := true, calibrationStarted := true, initDone := true }
    else if !s.initDone && !c then { s with initDone := true }
    else s
  let s2 :=
    if c && !s1.seenCalibrating then
      { s1 with seenCalibrating := true, calibrationCompleted := false }
    else s1
  let s3 :=
    if c && !s2.calibrationStarted then { s2 with calibrationStarted := true } else s2
  let s4 :=
    if s3.seenCalibrating && !c && !s3.calibrationCompleted then
      { s3 with calibrationCompleted := true }
    else s3
  s4

/-- The progress transition a newly arrived status snapshot induces. -/
def applySnapshot (status : Option PrinterStatus) (s : ProgressState) : ProgressState :=
  applyEffects (isCalibratingOf status) s

/-- Tracker state `Running` in the spec's sense: started and not completed. -/
def inRunning (s : ProgressState) : Bool :=
  s.calibrationStarted && !s.calibrationCompleted

/-- Tracker state `Completed` in the spec's sense. -/
def inCompleted (s : ProgressState) : Bool :=
  s.calibrationCompleted

/-- The pieces of component state the operator actions touch: the progress
flags, the option flags, the persisted record under
`calibration_options_<printerId>`, the mutation's `isPending` flag and its
last error message. -/
structure UiState where
  progress : ProgressState
  options : CalOptions
  stored : Option String
  isPending : Bool
  lastError : Option String
deriving DecidableEq

/-- `canStart` (line 201):
`isConnected && hasSelection && !calibrationMutation.isPending &&
!isCalibrating && !calibrationCompleted`. -/
def canStart (isConnected : Bool) (o : CalOptions) (isPending isCalib completed : Bool) :
    Bool :=
  isConnected && hasSelection o && !isPending && !isCalib && !completed

/-- The start button (lines 385-387): `disabled={!canStart}`, click runs
`calibrationMutation.mutate()`.  Returns whether a request was sent with
the resulting state; a disabled button's click is a no-op. -/
def startClick (isConnected isCalib : Bool) (ui : UiState) : Bool × UiState :=
  if canStart isConnected ui.options ui.isPending isCalib
      ui.progress.calibrationCompleted then
    (true, { ui with isPending := true, lastError := none })
  else (false, ui)

/-- `JSON.stringify({bedLeveling, vibration, motorNoise, nozzleOffset,
highTempHeatbed})` as written by `onSuccess` (lines 193-195). -/
def serializeOptions (o : CalOptions) : String :=
  let b : Bool → String := fun x => if x then "true" else "false"
  "\x7b\"bedLeveling\":" ++ b o.bedLeveling
    ++ ",\"vibration\":" ++ b o.vibration
    ++ ",\"motorNoise\":" ++ b o.motorNoise
    ++ ",\"nozzleOffset\":" ++ b o.nozzleOffset
    ++ ",\"highTempHeatbed\":" ++ b o.highTempHeatbed ++ "\x7d"

/-- Resolution of the start mutation (lines 182-198).  `onSuccess` persists
the selection and sets `calibrationStarted`; there is no `onError` handler,
so a failure only records the error message (react-query performs no
automatic retry for mutations) and in either case the request is no longer
in flight. -/
def resolveMutation (result : Except String Unit) (ui : UiState) : UiState :=
  match result with
  | Except.ok _ =>
    { ui with
      isPending := false
      stored := some (serializeOptions ui.options)
      progress := { ui.progress with calibrationStarted := true } }
  | Except.error msg => { ui with isPending := false, lastError := some msg }

/-- `resetCalibration` (lines 159-170): clears the persisted record, the
three progress flags and restores default options.  `initialized` and the
mutation state are untouched. -/
def resetCalibration (isDualNozzle : Bool) (ui : UiState) : UiState :=
  { ui with
    stored := none
    progress := { ui.progress with
      calibrationStarted := false
      seenCalibrating := false
      calibrationCompleted := false }
    options := defaultOptions isDualNozzle }

/-- The `disabled` prop of every option checkbox (e.g. line 271):
`!isConnected || isCalibrating`. -/
def checkboxDisabled (status : Option PrinterStatus) : Bool :=
  !connectedOf status || isCalibratingOf status

/-- A click on a `Checkbox` (line 29): `!disabled && onChange(!checked)` —
a disabled checkbox ignores the click, otherwise the option update runs. -/
def checkboxClick (disabled : Bool) (update : CalOptions → CalOptions)
    (o : CalOptions) : CalOptions :=
  if disabled then o else update o

/-- JSON values, the possible results of the JavaScript builtin
`JSON.parse` on the inputs this component stores (numbers restricted to
integers; `\u` escapes unsupported — the stored records never contain
either). -/
inductive JsValue where
  | null : JsValue
  | bool (b : Bool) : JsValue
  | num (n : Int) : JsValue
  | str (s : String) : JsValue
  | arr (elements : List JsValue) : JsValue
  | obj (fields : List (String × JsValue)) : JsValue

/-- The brace and bracket characters, by code point. -/
def lbraceChar : Char := Char.ofNat 123

def rbraceChar : Char := Char.ofNat 125

def lbrackChar : Char := Char.ofNat 91

def rbrackChar : Char := Char.ofNat 93

def isJsonWs (c : Char) : Bool :=
  c = ' ' || c = '\t' || c = '\n' || c = '\r'

def skipWs : List Char → List Char
  | [] => []
  | c :: cs => if isJsonWs c then skipWs cs else c :: cs

/-- Consume an exact literal such as `rue` after `t`. -/
def eatLit : List Char → List Char → Option (List Char)
  | [], cs => some cs
  | _ :: _, [] => none
  | l :: ls, c :: cs => if c = l then eatLit ls cs else none

/-- The character a JSON escape `\\e` denotes, or `none` for an escape this
model does not support. -/
def escChar (e : Char) : Option Char :=
  if e = '"' then some '"'
  else if e = '\\' then some '\\'
  else if e = '/' then some '/'
  else if e = 'n' then some '\n'
  else if e = 't' then some '\t'
  else if e = 'r' then some '\r'
  else none

/-- Body of a JSON string after the opening quote: the decoded characters
and the remainder after the closing quote. -/
def eatStringBody : List Char → Option (List Char × List Char)
  | [] => none
  | c :: cs =>
    if c = '"' then some ([], cs)
    else if c = '\\' then
      match cs with
      | [] => none
      | e :: rest =>
        match escChar e with
        | none => none
        | some ch =>
          match eatStringBody rest with
          | none => none
          | some (body, r) => some (ch :: body, r)
    else
      match eatStringBody cs with
      | none => none
      | some (body, r) => some (c :: body, r)

def takeDigits : List Char → List Char × List Char
  | [] => ([], [])
  | c :: cs =>
    if c.isDigit then
      let (ds, r) := takeDigits cs
      (c :: ds, r)
    else ([], c :: cs)

def digitsToNat (ds : List Char) : Nat :=
  ds.foldl (fun n c => n * 10 + (c.toNat - 48)) 0

mutual

/-- Recursive-descent JSON reader (fuel-indexed); `none` models a
`SyntaxError` thrown by `JSON.parse`. -/
def readValue : Nat → List Char → Option (JsValue × List Char)
  | 0, _ => none
  | fuel + 1, cs =>
    match skipWs cs with
    | [] => none
    | c :: rest =>
      if c = '"' then
        match eatStringBody rest with
        | some (body, r) => some (JsValue.str (String.mk body), r)
        | none => none
      else if c = lbraceChar then
        match skipWs rest with
        | c2 :: r2 =>
          if c2 = rbraceChar then some (JsValue.obj [], r2)
          else
            match readObjFields fuel (c2 :: r2) with
            | some (fields, r3) => some (JsValue.obj fields, r3)
            | none => none
        | [] => none
      else if c = lbrackChar then
        match skipWs rest with
        | c2 :: r2 =>
          if c2 = rbrackChar then some (JsValue.arr [], r2)
          else
            match readArrElems fuel (c2 :: r2) with
            | some (elems, r3) => some (JsValue.arr elems, r3)
            | none => none
        | [] => none
      else if c = 't' then
        (eatLit ['r', 'u', 'e'] rest).map (fun r => (JsValue.bool true, r))
      else if c = 'f' then
        (eatLit ['a', 'l', 's', 'e'] rest).map (fun r => (JsValue.bool false, r))
      else if c = 'n' then
        (eatLit ['u', 'l', 'l'] rest).map (fun r => (JsValue.null, r))
      else if c = '-' then
        match takeDigits rest with
        | ([], _) => none
        | (ds, r) => some (JsValue.num (-(digitsToNat ds : Int)), r)
      else if c.isDigit then
        match takeDigits (c :: rest) with
        | (ds, r) => some (JsValue.num (digitsToNat ds), r)
      else none

/-- One or more comma-separated array elements up to `]`. -/
def readArrElems : Nat → List Char → Option (List JsValue × List Char)
  | 0, _ => none
  | fuel + 1, cs =>
    match readValue fuel cs with
    | none => none
    | some (v, r) =>
      match skipWs r with
      | [] => none
      | c :: r2 =>
        if c = ',' then
          match readArrElems fuel r2 with
          | some (vs, r3) => some (v :: vs, r3)
          | none => none
        else if c = rbrackChar then some ([v], r2)
        else none

/-- One or more comma-separated `"key": value` fields up to the closing
brace. -/
def readObjFields : Nat → List Char → Option (List (String × JsValue) × List Char)
  | 0, _ => none
  | fuel + 1, cs =>
    match skipWs cs with
    | [] => none
    | c :: r =>
      if c = '"' then
        match eatStringBody r with
        | none => none
        | some (key, r2) =>
          match skipWs r2 with
          | [] => none
          | c2 :: r3 =>
            if c2 = ':' then
              match readValue fuel r3 with
              | none => none
              | some (v, r4) =>
                match skipWs r4 with
                | [] => none
                | c3 :: r5 =>
                  if c3 = ',' then
                    match readObjFields fuel r5 with
                    | some (fs, r6) => some ((String.mk key, v) :: fs, r6)
                    | none => none
                  else if c3 = rbraceChar then some ([(String.mk key, v)], r5)
                  else none
            else none
      else none

end

/-- Model of the JavaScript builtin `JSON.parse`: `some` a value on a
well-formed document, `none` when `JSON.parse` throws a `SyntaxError`
(malformed content, trailing garbage). -/
def jsonParse (s : String) : Option JsValue :=
  match readValue (s.length + 1) s.toList with
  | some (v, rest) => if (skipWs rest).isEmpty then some v else none
  | none => none

/-- Line 106: `const parsedOptions = savedOptions ? JSON.parse(savedOptions)
: null;` — `JSON.parse` is called with NO try/catch, so a malformed stored
record throws during render; the uncaught exception is `Except.error`. -/
def computeParsedOptions (savedOptions : Option String) :
    Except String (Option JsValue) :=
  match savedOptions with
  | none => Except.ok none
  | some s =>
    match jsonParse s with
    | some v => Except.ok (some v)
    | none => Except.error "SyntaxError: JSON.parse"

/-- `parsedOptions?.key` when the expected value is a boolean: `some` when
the parse result is an object with a boolean at `key`, otherwise `none`
(`undefined`, so the `??` default applies; the stored records only ever
hold booleans). -/
def jsGetBool (v : Option JsValue) (key : String) : Option Bool :=
  match v with
  | some (JsValue.obj fields) =>
    match fields.lookup key with
    | some (JsValue.bool b) => some b
    | _ => none
  | _ => none

/-- Session initialization of the five option flags (lines 104-112):
restore each from the parsed record with its `??` default.  A `JSON.parse`
failure propagates: the component render crashes. -/
def initOptions (isDualNozzle : Bool) (savedOptions : Option String) :
    Except String CalOptions :=
  (computeParsedOptions savedOptions).map (fun p =>
    { bedLeveling := (jsGetBool p "bedLeveling").getD true
      vibration := (jsGetBool p "vibration").getD true
      motorNoise := (jsGetBool p "motorNoise").getD true
      nozzleOffset := (jsGetBool p "nozzleOffset").getD isDualNozzle
      highTempHeatbed := (jsGetBool p "highTempHeatbed").getD false })

/-- Once `seenCalibrating` is set, no run of the snapshot effects clears
it: every assignment in `applyEffects` writes `true` to the field. -/
theorem applyEffects_seen_mono (c : Bool) (s : ProgressState)
    (h : s.seenCalibrating = true) : (applyEffects c s).seenCalibrating = true := by
  obtain ⟨a, b, d, e⟩ := s
  revert h
  revert c a b d e
  decide

/-- For a fixed classifier value the snapshot effects are a projection:
running them a second time changes nothing. -/
theorem applyEffects_idem (c a b d e : Bool) :
    applyEffects c (applyEffects c ⟨a, b, d, e⟩) = applyEffects c ⟨a, b, d, e⟩ := by
  revert c a b d e
  decide

/-- Claim C1: with the selection bed-leveling only and dual-extrusion
false, the flow is the four steps Homing, Cooling, Bed leveling phase 1,
Bed leveling phase 2; processing (RUNNING,13), (RUNNING,1), (RUNNING,48),
(IDLE,48) from the all-false progress state derives step indices 0, 2, 3,
3, and after the last snapshot the tracker is Completed. -/
theorem c1_scenarioB_progression :
    (expectedFlow ⟨true, false, false, false, false⟩ false).map FlowStep.name
      = ["Homing toolhead", "Cooling heatbed", "Auto bed leveling - phase 1",
         "Auto bed leveling - phase 2"] ∧
    currentStepIndex (expectedFlow ⟨true, false, false, false, false⟩ false)
      (currentStageOf (some ⟨true, "RUNNING", 13, none⟩)) = 0 ∧
    currentStepIndex (expectedFlow ⟨true, false, false, false, false⟩ false)
      (currentStageOf (some ⟨true, "RUNNING", 1, none⟩)) = 2 ∧
    currentStepIndex (expectedFlow ⟨true, false, false, false, false⟩ false)
      (currentStageOf (some ⟨true, "RUNNING", 48, none⟩)) = 3 ∧
    currentStepIndex (expectedFlow ⟨true, false, false, false, false⟩ false)
      (currentStageOf (some ⟨true, "IDLE", 48, none⟩)) = 3 ∧
    inCompleted
      (applySnapshot (some ⟨true, "IDLE", 48, none⟩)
        (applySnapshot (some ⟨true, "RUNNING", 48, none⟩)
          (applySnapshot (some ⟨true, "RUNNING", 1, none⟩)
            (applySnapshot (some ⟨true, "RUNNING", 13, none⟩)
              ⟨false, false, false, false⟩)))) = true := by
  decide

/-- Claim C2: the stage classifier returns true exactly when the stage
code is in the hard-coded set {1, 3, 13, 25, 39, 40, 47, 48, 50} and the
device state equals RUNNING; outside that set, or for any other device
state, it is false. -/
theorem c2_isCalibrating_iff (stageCode : Int) (deviceState : Option String) :
    isCalibrating stageCode deviceState = true ↔
      stageCode ∈ ([1, 3, 13, 25, 39, 40, 47, 48, 50] : List Int) ∧
        deviceState = some "RUNNING" := by
  simp [isCalibrating, CALIBRATION_STAGES]

/-- Claim C3: once `everSeenRunning` (`seenCalibrating`) is true it stays
true across every snapshot transition; it becomes false again only through
the explicit operator reset. -/
theorem c3_seenCalibrating_monotone :
    (∀ (status : Option PrinterStatus) (s : ProgressState),
      s.seenCalibrating = true → (applySnapshot status s).seenCalibrating = true) ∧
    (∀ (isDualNozzle : Bool) (ui : UiState),
      (resetCalibration isDualNozzle ui).progress.seenCalibrating = false) := by
  constructor
  · intro status s h
    exact applyEffects_seen_mono (isCalibratingOf status) s h
  · intro isDualNozzle ui
    rfl

/-- Witness for C3 at concrete inputs. -/
theorem c3_seenCalibrating_monotone_witness :
    (applySnapshot none ⟨true, true, false, true⟩).seenCalibrating = true ∧
    (resetCalibration false
      ⟨⟨true, true, true, true⟩, ⟨true, true, true, false, false⟩, none, false,
        none⟩).progress.seenCalibrating = false :=
  ⟨c3_seenCalibrating_monotone.1 none ⟨true, true, false, true⟩ rfl,
   c3_seenCalibrating_monotone.2 false _⟩

/-- Claim C4: re-delivering the identical snapshot leaves the progress
state unchanged, and the derived step index (a function of snapshot and
flow alone) is the same on both deliveries. -/
theorem c4_snapshot_idempotent (status : Option PrinterStatus) (s : ProgressState)
    (flow : List FlowStep) :
    applySnapshot status (applySnapshot status s) = applySnapshot status s ∧
    currentStepIndex flow (currentStageOf status)
      = currentStepIndex flow (currentStageOf status) := by
  obtain ⟨a, b, d, e⟩ := s
  exact ⟨applyEffects_idem (isCalibratingOf status) a b d e, rfl⟩

/-- Claim C5 (code bug): line 106 calls `JSON.parse` with no try/catch, so
a malformed stored record — here the single character `\x7b` — makes
session initialization throw (the render crashes) instead of silently
falling back to defaults; an absent record does initialize to defaults. -/
theorem c5_malformed_record_crashes :
    initOptions false (some "\x7b") = Except.error "SyntaxError: JSON.parse" ∧
    initOptions true none = Except.ok (defaultOptions true) :=
  ⟨rfl, rfl⟩

/-- Claim C6 as stated is false: with every option false the builder still
returns the unconditionally pushed Homing step, not an empty list. -/
theorem c6_counterexample :
    expectedFlow ⟨false, false, false, false, false⟩ false ≠ [] := by
  decide

/-- Claim C6 (amended): with every option false, for either dual-extrusion
capability, the flow is exactly the single unconditional Homing step, and
`hasSelection` is false, which is what makes the caller show the
nothing-selected state instead of the timeline. -/
theorem c6_allFalse_flow_homing (isDualNozzle : Bool) :
    expectedFlow ⟨false, false, false, false, false⟩ isDualNozzle
      = [⟨"Homing toolhead", [13]⟩] ∧
    hasSelection ⟨false, false, false, false, false⟩ = false := by
  cases isDualNozzle <;> exact ⟨rfl, rfl⟩

/-- Claim C7: the start click sends a request only when `canStart` holds
(connected, nonempty selection, no request in flight, not calibrating, not
completed); when any precondition fails the click sends nothing and leaves
the state — in particular the progress flags — unchanged. -/
theorem c7_start_preconditions (isConnected isCalib : Bool) (ui : UiState)
    (h : canStart isConnected ui.options ui.isPending isCalib
      ui.progress.calibrationCompleted = false) :
    startClick isConnected isCalib ui = (false, ui) ∧
    (startClick isConnected isCalib ui).2.progress = ui.progress := by
  constructor
  · simp [startClick, h]
  · simp [startClick, h]

/-- Witness for C7: all options false on a connected, idle device — the
click is a no-op. -/
theorem c7_start_preconditions_witness :
    startClick true false
      ⟨⟨false, false, false, true⟩, ⟨false, false, false, false, false⟩, none,
        false, none⟩
      = (false,
         ⟨⟨false, false, false, true⟩, ⟨false, false, false, false, false⟩, none,
           false, none⟩) :=
  (c7_start_preconditions true false _ (by decide)).1

/-- Claim C8: a failed start request leaves the progress flags, the
persisted record and the options exactly as they were; only the error
message is surfaced and the request is no longer in flight (no retry). -/
theorem c8_failure_frame (msg : String) (ui : UiState) :
    (resolveMutation (Except.error msg) ui).progress = ui.progress ∧
    (resolveMutation (Except.error msg) ui).stored = ui.stored ∧
    (resolveMutation (Except.error msg) ui).options = ui.options ∧
    (resolveMutation (Except.error msg) ui).lastError = some msg ∧
    (resolveMutation (Except.error msg) ui).isPending = false :=
  ⟨rfl, rfl, rfl, rfl, rfl⟩

/-- Claim C9 as stated is false: with the tracker in `Running` (started,
not completed) but the classifier not reporting calibrating (connected
device, state IDLE), the checkbox is enabled and a click does change the
selection. -/
theorem c9_counterexample :
    inRunning ⟨true, false, false, true⟩ = true ∧
    checkboxDisabled (some ⟨true, "IDLE", 13, none⟩) = false ∧
    checkboxClick (checkboxDisabled (some ⟨true, "IDLE", 13, none⟩))
        (fun o => { o with bedLeveling := false }) (defaultOptions false)
      ≠ defaultOptions false := by
  decide

/-- Claim C9 (amended): an option checkbox is disabled whenever the device
is disconnected or the classifier reports calibrating — in particular
while the classifier reports calibrating a click cannot change the
selection; tracker-`Running` by itself does not disable it. -/
theorem c9_checkbox_gating (status : Option PrinterStatus)
    (update : CalOptions → CalOptions) (o : CalOptions)
    (h : isCalibratingOf status = true) :
    checkboxDisabled status = true ∧
    checkboxClick (checkboxDisabled status) update o = o := by
  have hd : checkboxDisabled status = true := by
    simp [checkboxDisabled, h]
  exact ⟨hd, by simp [checkboxClick, hd]⟩

/-- Witness for the amended C9 at a calibrating snapshot. -/
theorem c9_checkbox_gating_witness :
    checkboxDisabled (some ⟨true, "RUNNING", 13, none⟩) = true ∧
    checkboxClick (checkboxDisabled (some ⟨true, "RUNNING", 13, none⟩))
        (fun o => { o with bedLeveling := false }) (defaultOptions false)
      = defaultOptions false :=
  c9_checkbox_gating (some ⟨true, "RUNNING", 13, none⟩)
    (fun o => { o with bedLeveling := false }) (defaultOptions false) (by decide)

/-- Claim C10: an absent status snapshot degrades to safe defaults:
connected is false, the stage code is -1, the classifier reports
not-calibrating, `canStart` is false for every selection and flag
combination, and a progress state that has already seen calibrating
transitions to completed. -/
theorem c10_absent_status_safe :
    connectedOf none = false ∧
    currentStageOf none = -1 ∧
    isCalibratingOf none = false ∧
    (∀ (o : CalOptions) (isPending completed : Bool),
      canStart (connectedOf none) o isPending (isCalibratingOf none) completed
        = false) ∧
    (∀ s : ProgressState, s.seenCalibrating = true →
      (applySnapshot none s).calibrationCompleted = true) := by
  refine ⟨rfl, rfl, rfl, fun o isPending completed => rfl, fun s h => ?_⟩
  obtain ⟨a, b, d, e⟩ := s
  revert h
  revert a b d e
  decide

/-- Witness for C10 at concrete inputs. -/
theorem c10_absent_status_safe_witness :
    canStart (connectedOf none) ⟨true, true, true, true, true⟩ false
        (isCalibratingOf none) false = false ∧
    (applySnapshot none ⟨true, true, false, true⟩).calibrationCompleted = true :=
  ⟨c10_absent_status_safe.2.2.2.1 ⟨true, true, true, true, true⟩ false false,
   c10_absent_status_safe.2.2.2.2 ⟨true, true, false, true⟩ rfl⟩
